import Mathlib

/-!
Verification of the watch-history store of `video_tracker.py` (class
`VideoTracker`).  The store is a mapping from video basenames to watch
records, backed by a JSON file; the operations embedded here are
`load_history`, `save_history`, `track_video`, `get_last_watched`,
`play_video` and `list_videos`.

Filesystem effects are made explicit: existence checks become a predicate
`ex : String → Bool`, the current clock becomes a `now : String` argument,
reading the history file becomes a `FileState` argument, writing it a
`WriteResult` argument, and messages printed to the console become
`Option String` components of the results.  Paths follow POSIX semantics
(`os.path` on the platform the program targets in this repository); the
path helpers are written over the character list of the string so that all
of them compute by kernel reduction.
-/

namespace VideoTracker

/-- POSIX `os.path.isabs`: a path is absolute iff it starts with `/`. -/
def isabs (p : String) : Bool :=
  match p.data with
  | [] => false
  | c :: _ => c == '/'

/-- POSIX `os.path.join a b` for the two-argument case: if `b` is absolute
the result is `b`; otherwise `b` is appended to `a`, inserting `/` unless
`a` is empty or already ends with `/`. -/
def pathJoin (a b : String) : String :=
  if isabs b then b
  else if a.data.isEmpty || (a.data.getLast? == some '/') then a ++ b
  else a ++ "/" ++ b

/-- POSIX `os.path.basename`: everything after the last `/` (the whole
string when there is no `/`, empty when the path ends with `/`). -/
def basename (p : String) : String :=
  String.mk ((p.data.reverse.takeWhile (fun c => c ≠ '/')).reverse)

/-- Last index of character `c` in the list, as an `Int`, `-1` when absent
(the convention of Python's `str.rfind`). -/
def lastIndexOfAux (cs : List Char) (c : Char) (i best : Int) : Int :=
  match cs with
  | [] => best
  | ch :: rest => lastIndexOfAux rest c (i + 1) (if ch = c then i else best)

def lastIndexOf (cs : List Char) (c : Char) : Int := lastIndexOfAux cs c 0 (-1)

/-- Python `os.path.splitext(p)[1]` (POSIX): the extension runs from the
last dot to the end, provided that dot lies after the last `/` and some
character of the final component strictly before it is not a dot (leading
dots of the final component never begin an extension). -/
def splitextExt (p : String) : String :=
  let cs := p.data
  let sepIndex := lastIndexOf cs '/'
  let dotIndex := lastIndexOf cs '.'
  if sepIndex < dotIndex then
    if (List.range cs.length).any (fun i =>
        decide (sepIndex + 1 ≤ (i : Int)) && decide ((i : Int) < dotIndex)
          && decide (cs.getD i '.' ≠ '.')) then
      String.mk (cs.drop dotIndex.toNat)
    else ""
  else ""

/-- A watch record: the JSON object stored under a video's basename. -/
structure WatchRecord where
  last_watched : String
  watched_percentage : Int
  full_path : String
deriving Repr, DecidableEq

/-- The in-memory history mapping (a Python dict keyed by basename). -/
abbrev History := List (String × WatchRecord)

/-- The mutable state of a `VideoTracker` instance. -/
structure TrackerState where
  video_folder : String
  history : History
deriving Repr, DecidableEq

/-- The resolution `track_video` and `play_video` apply to their argument:
relative identifiers are joined against the tracked folder. -/
def resolvePath (folder vf : String) : String :=
  if isabs vf then vf else pathJoin folder vf

/-- Result of a call to `track_video`: the state afterwards, whether
`save_history` was triggered, and the console report, if any. -/
structure TrackResult where
  state : TrackerState
  saved : Bool
  report : Option String
deriving Repr, DecidableEq

/-- `track_video(video_file, timestamp, watched_percentage)`: resolve the
identifier against the folder, abort with a report when the resolved path
does not exist, otherwise replace the whole history with a single entry
keyed by the basename of the resolved path and trigger a save.  A `none`
timestamp defaults to the current clock `now`. -/
def track_video (ex : String → Bool) (now : String) (st : TrackerState)
    (video_file : String) (timestamp : Option String) (watched_percentage : Int) :
    TrackResult :=
  let vf := resolvePath st.video_folder video_file
  if ex vf then
    let ts := timestamp.getD now
    { state :=
        { st with history :=
            [(basename vf,
              { last_watched := ts
                watched_percentage := watched_percentage
                full_path := vf })] }
      saved := true
      report := none }
  else
    { state := st
      saved := false
      report := some ("File not found: " ++ vf) }

/-- Result type of `get_last_watched`: either a record lookup (possibly
`None`) or the whole mapping. -/
inductive GetResult where
  | record : Option WatchRecord → GetResult
  | mapping : History → GetResult
deriving Repr, DecidableEq

/-- `get_last_watched(video_file)`: Python's `if video_file:` is a
truthiness test, so both `None` and the empty string fall through to
returning the whole mapping; a non-empty identifier is normalized to its
basename and looked up. -/
def get_last_watched (st : TrackerState) (video_file : Option String) : GetResult :=
  match video_file with
  | some vf =>
    if vf.data.isEmpty then GetResult.mapping st.history
    else GetResult.record (st.history.lookup (basename vf))
  | none => GetResult.mapping st.history

/-- The JSON values `json.load` can produce. -/
inductive Json where
  | null : Json
  | bool : Bool → Json
  | num : Int → Json
  | str : String → Json
  | arr : List Json → Json
  | obj : List (String × Json) → Json
deriving Repr

/-- What the attempt to read and parse the tracking file can find: the
file is missing, opening or reading it raises `IOError`, its text is not
valid JSON, or it parses to a JSON value. -/
inductive FileState where
  | missing : FileState
  | ioError : FileState
  | invalid : FileState
  | valid : Json → FileState
deriving Repr

/-- `load_history`: return `{}` when the file does not exist; otherwise
open and parse it, catching `json.JSONDecodeError` and `IOError` and
returning `{}` in their place; a successful parse is returned as-is,
whatever its shape.  The function is total: none of the three failure
conditions escapes to the caller. -/
def load_history (fs : FileState) : Json :=
  match fs with
  | FileState.missing => Json.obj []
  | FileState.ioError => Json.obj []
  | FileState.invalid => Json.obj []
  | FileState.valid v => v

/-- Outcome of the file write inside `save_history`. -/
inductive WriteResult where
  | ok : WriteResult
  | ioError : String → WriteResult
deriving Repr, DecidableEq

/-- `save_history`: serialize `self.history` to the tracking file; an
`IOError` is caught and reported on the console, everything else about the
object is left untouched and nothing propagates to the caller. -/
def save_history (st : TrackerState) (w : WriteResult) :
    TrackerState × Option String :=
  match w with
  | WriteResult.ok => (st, none)
  | WriteResult.ioError e => (st, some ("Error saving tracking file: " ++ e))

/-- `play_video(video_file)`: resolve the path, branch on
`platform.system()` and attempt to launch the default player — any
exception is caught and reported, an unrecognized platform is reported
without a launch — and in every case fall through to
`track_video(video_file)` with default timestamp and percentage.
`launchRaises` abstracts whether the launch attempt raises. -/
def play_video (ex : String → Bool) (now : String) (system : String)
    (launchRaises : Bool) (st : TrackerState) (video_file : String) :
    Option String × TrackResult :=
  let vf := resolvePath st.video_folder video_file
  let launchReport : Option String :=
    if system = "Darwin" ∨ system = "Windows" ∨ system = "Linux" then
      (if launchRaises then some "Error playing video" else none)
    else some ("Unsupported operating system: " ++ system)
  (launchReport, track_video ex now st vf none 0)

/-- The fixed allow-list of video extensions in `list_videos`. -/
def video_extensions : List String := [".mp4", ".avi", ".mkv", ".mov", ".wmv"]

/-- `list_videos()`: filter the folder's immediate listing, keeping the
names whose `os.path.splitext` extension, lower-cased, is on the
allow-list. -/
def list_videos (entries : List String) : List String :=
  entries.filter (fun f => video_extensions.contains (splitextExt f).toLower)

/-- A concrete sample record and state, used by concrete instantiations. -/
def rec0 : WatchRecord :=
  { last_watched := "2024-01-01T12:00:00"
    watched_percentage := 0
    full_path := "/vids/a.mp4" }

def st0 : TrackerState := { video_folder := "/vids", history := [("a.mp4", rec0)] }

/-- A concrete existence predicate: only `/vids/a.mp4` and `/vids/b.mp4`
exist on disk. -/
def exAB : String → Bool := fun s => s == "/vids/a.mp4" || s == "/vids/b.mp4"

/-- `basename` is idempotent: the basename contains no `/`, so taking its
basename again changes nothing. -/
theorem basename_idem (p : String) : basename (basename p) = basename p := by
  unfold basename
  simp only [List.reverse_reverse]
  congr 2
  exact List.takeWhile_idem

/-- A non-empty string has a non-empty character list. -/
theorem data_not_isEmpty_of_ne (s : String) (h : s ≠ "") :
    s.data.isEmpty = false := by
  cases s with
  | mk l =>
    cases l with
    | nil => exact absurd rfl h
    | cons c cs => rfl

/-- Helper: the full shape of a successful `track_video` call. -/
theorem track_video_success (ex : String → Bool) (now : String) (st : TrackerState)
    (v : String) (ts : Option String) (pc : Int)
    (h : ex (resolvePath st.video_folder v) = true) :
    track_video ex now st v ts pc =
      { state :=
          { st with history :=
              [(basename (resolvePath st.video_folder v),
                { last_watched := ts.getD now
                  watched_percentage := pc
                  full_path := resolvePath st.video_folder v })] }
        saved := true
        report := none } := by
  unfold track_video
  simp [h]

/-- C1: tracking `a` then `b` (both resolving to existing files) leaves the
history holding exactly the single entry keyed by the basename of `b`'s
resolved path; when the two basenames differ, no entry remains under `a`'s
key; and in general every successful track replaces the entire in-memory
mapping with a single-entry mapping, whatever it held before. -/
theorem track_single_entry_overwrite (ex : String → Bool) (now1 now2 : String)
    (st : TrackerState) (a b : String)
    (ha : ex (resolvePath st.video_folder a) = true)
    (hb : ex (resolvePath st.video_folder b) = true) :
    ((track_video ex now2 (track_video ex now1 st a none 0).state b none
          0).state.history
        = [(basename (resolvePath st.video_folder b),
            { last_watched := now2
              watched_percentage := 0
              full_path := resolvePath st.video_folder b })])
    ∧ (basename (resolvePath st.video_folder a)
          ≠ basename (resolvePath st.video_folder b) →
        (track_video ex now2 (track_video ex now1 st a none 0).state b none
            0).state.history.lookup (basename (resolvePath st.video_folder a)) = none)
    ∧ ∀ (st' : TrackerState) (v now : String) (ts : Option String) (pc : Int),
        ex (resolvePath st'.video_folder v) = true →
        ∃ k r, (track_video ex now st' v ts pc).state.history = [(k, r)] := by
  have hfolder : (track_video ex now1 st a none 0).state.video_folder
      = st.video_folder := by
    rw [track_video_success ex now1 st a none 0 ha]
  have hb' : ex (resolvePath (track_video ex now1 st a none 0).state.video_folder b)
      = true := by rw [hfolder]; exact hb
  have h2 := track_video_success ex now2 (track_video ex now1 st a none 0).state
    b none 0 hb'
  refine ⟨?_, ?_, ?_⟩
  · rw [h2, hfolder]; rfl
  · intro hne
    have hbeq : (basename (resolvePath st.video_folder a)
        == basename (resolvePath st.video_folder b)) = false :=
      beq_eq_false_iff_ne.mpr hne
    rw [h2, hfolder]
    simp [List.lookup, hbeq]
  · intro st' v now ts pc h
    rw [track_video_success ex now st' v ts pc h]
    exact ⟨_, _, rfl⟩

/-- C1 witness at concrete inputs. -/
theorem track_single_entry_overwrite_witness :
    exAB (resolvePath st0.video_folder "a.mp4") = true ∧
    exAB (resolvePath st0.video_folder "b.mp4") = true ∧
    (((track_video exAB "t2" (track_video exAB "t1" st0 "a.mp4" none 0).state
          "b.mp4" none 0).state.history
        = [(basename (resolvePath st0.video_folder "b.mp4"),
            { last_watched := "t2"
              watched_percentage := 0
              full_path := resolvePath st0.video_folder "b.mp4" })])
      ∧ (basename (resolvePath st0.video_folder "a.mp4")
            ≠ basename (resolvePath st0.video_folder "b.mp4") →
          (track_video exAB "t2" (track_video exAB "t1" st0 "a.mp4" none 0).state
              "b.mp4" none 0).state.history.lookup
            (basename (resolvePath st0.video_folder "a.mp4")) = none)
      ∧ ∀ (st' : TrackerState) (v now : String) (ts : Option String) (pc : Int),
          exAB (resolvePath st'.video_folder v) = true →
          ∃ k r, (track_video exAB now st' v ts pc).state.history = [(k, r)]) :=
  ⟨by decide, by decide,
    track_single_entry_overwrite exAB "t1" "t2" st0 "a.mp4" "b.mp4"
      (by decide) (by decide)⟩

/-- C2: when the resolved path does not exist, `track_video` reports
"File not found", the state (including the history mapping) is unchanged,
and `save_history` is not triggered. -/
theorem track_missing_aborts (ex : String → Bool) (now : String) (st : TrackerState)
    (vf : String) (ts : Option String) (pc : Int)
    (h : ex (resolvePath st.video_folder vf) = false) :
    track_video ex now st vf ts pc =
      { state := st
        saved := false
        report := some ("File not found: " ++ resolvePath st.video_folder vf) } := by
  unfold track_video
  simp [h]

/-- C2 witness at concrete inputs. -/
theorem track_missing_aborts_witness :
    exAB (resolvePath st0.video_folder "c.mp4") = false ∧
    track_video exAB "t0" st0 "c.mp4" none 0 =
      { state := st0
        saved := false
        report := some ("File not found: " ++ resolvePath st0.video_folder "c.mp4") } :=
  ⟨by decide, track_missing_aborts exAB "t0" st0 "c.mp4" none 0 (by decide)⟩

/-- C3: `load_history` returns the empty mapping when the tracking file is
missing, unreadable, or invalid JSON; being a total function into `Json`,
it raises nothing to the caller in any of these three conditions, and the
result does not depend on any store path. -/
theorem load_history_failure_empty :
    load_history FileState.missing = Json.obj [] ∧
    load_history FileState.ioError = Json.obj [] ∧
    load_history FileState.invalid = Json.obj [] :=
  ⟨rfl, rfl, rfl⟩

/-- C4: after tracking an existing file by absolute path (with a non-empty
final path component, as any path naming a file has), `get_last_watched`
on the bare basename returns exactly the record just stored:
`track_video` keys the entry by basename, and `get_last_watched`
normalizes its argument to basename, so both resolve to the same record. -/
theorem track_abs_then_get_bare (ex : String → Bool) (now : String)
    (st : TrackerState) (p : String) (ts : Option String) (pc : Int)
    (habs : isabs p = true) (hex : ex p = true) (hbn : basename p ≠ "") :
    get_last_watched (track_video ex now st p ts pc).state (some (basename p)) =
      GetResult.record (some
        { last_watched := ts.getD now
          watched_percentage := pc
          full_path := p }) := by
  have hres : resolvePath st.video_folder p = p := by
    unfold resolvePath; rw [habs]; simp
  have hex' : ex (resolvePath st.video_folder p) = true := by
    rw [hres]; exact hex
  rw [track_video_success ex now st p ts pc hex']
  simp only [get_last_watched, data_not_isEmpty_of_ne (basename p) hbn,
    Bool.false_eq_true, if_false, hres, basename_idem, List.lookup]
  rw [beq_self_eq_true]

/-- C4 witness at concrete inputs. -/
theorem track_abs_then_get_bare_witness :
    isabs "/vids/a.mp4" = true ∧ exAB "/vids/a.mp4" = true ∧
    basename "/vids/a.mp4" ≠ "" ∧
    get_last_watched (track_video exAB "t1" st0 "/vids/a.mp4" none 0).state
        (some (basename "/vids/a.mp4")) =
      GetResult.record (some
        { last_watched := "t1"
          watched_percentage := 0
          full_path := "/vids/a.mp4" }) :=
  ⟨by decide, by decide, by decide,
    track_abs_then_get_bare exAB "t1" st0 "/vids/a.mp4" none 0
      (by decide) (by decide) (by decide)⟩

/-- C5 counterexample: with a non-empty history, `get_last_watched` on the
empty-string identifier does NOT return the lookup under the identifier's
basename (which would be an absent result, since no entry has key `""`);
Python's truthiness test sends the empty string down the no-identifier
branch, returning the whole mapping instead. -/
theorem get_empty_string_counterexample :
    List.lookup (basename "") st0.history = none ∧
    get_last_watched st0 (some "") ≠
      GetResult.record (List.lookup (basename "") st0.history) := by
  decide

/-- C5 (amended): for every NON-EMPTY identifier, `get_last_watched`
returns the record stored under the identifier's basename (absent when no
entry has that key); with no identifier — and likewise with the empty
string, which the truthiness test treats the same as no identifier — it
returns the full current mapping. -/
theorem get_last_watched_cases (st : TrackerState) :
    (∀ vf : String, vf ≠ "" →
        get_last_watched st (some vf) =
          GetResult.record (st.history.lookup (basename vf)))
    ∧ get_last_watched st none = GetResult.mapping st.history
    ∧ get_last_watched st (some "") = GetResult.mapping st.history := by
  refine ⟨fun vf h => ?_, rfl, rfl⟩
  simp only [get_last_watched, data_not_isEmpty_of_ne vf h,
    Bool.false_eq_true, if_false]

/-- C5 witness at concrete inputs. -/
theorem get_last_watched_cases_witness :
    ("a.mp4" : String) ≠ "" ∧
    get_last_watched st0 (some "a.mp4") =
      GetResult.record (st0.history.lookup (basename "a.mp4")) :=
  ⟨by decide, (get_last_watched_cases st0).1 "a.mp4" (by decide)⟩

/-- C6: a name is in the output of `list_videos` exactly when it is in the
folder's immediate listing and its `splitext` extension, lower-cased, is
one of `.mp4, .avi, .mkv, .mov, .wmv`. -/
theorem list_videos_membership (entries : List String) (f : String) :
    f ∈ list_videos entries ↔
      f ∈ entries ∧ (splitextExt f).toLower ∈ video_extensions := by
  simp [list_videos, List.mem_filter]

/-- C7: whatever the platform string and whether or not the launch attempt
raises (the exception being caught and at most reported, never
propagated), `play_video` always calls `track_video` on the resolved file
afterward with the default timestamp (`none`, i.e. the current clock) and
default percentage `0`; tracking is never skipped. -/
theorem play_video_tracks_unconditionally (ex : String → Bool)
    (now system : String) (launchRaises : Bool) (st : TrackerState) (vf : String) :
    (play_video ex now system launchRaises st vf).2 =
      track_video ex now st (resolvePath st.video_folder vf) none 0 := rfl

/-- C8: `save_history` never changes the in-memory state, whether the
write succeeds or fails; an `IOError` is reported on the console and
nothing propagates to the caller (the function is total and the tracker
state comes back identical in both branches). -/
theorem save_history_preserves_memory (st : TrackerState) (w : WriteResult) :
    (save_history st w).1 = st ∧
    (save_history st WriteResult.ok).2 = none ∧
    ∀ e, (save_history st (WriteResult.ioError e)).2 =
      some ("Error saving tracking file: " ++ e) := by
  refine ⟨?_, rfl, fun e => rfl⟩
  cases w <;> rfl

/-- C9: after every successful track, the stored single entry is
self-consistent: the key equals the basename of the record's `full_path`,
and `full_path` is the resolved path (the argument itself when absolute,
the folder-joined path otherwise). -/
theorem track_entry_self_consistent (ex : String → Bool) (now : String)
    (st : TrackerState) (vf : String) (ts : Option String) (pc : Int)
    (h : ex (resolvePath st.video_folder vf) = true) :
    ∃ k r, (track_video ex now st vf ts pc).state.history = [(k, r)]
      ∧ k = basename r.full_path
      ∧ r.full_path = resolvePath st.video_folder vf := by
  rw [track_video_success ex now st vf ts pc h]
  exact ⟨_, _, rfl, rfl, rfl⟩

/-- C9 witness at concrete inputs. -/
theorem track_entry_self_consistent_witness :
    exAB (resolvePath st0.video_folder "b.mp4") = true ∧
    ∃ k r, (track_video exAB "t1" st0 "b.mp4" none 0).state.history = [(k, r)]
      ∧ k = basename r.full_path
      ∧ r.full_path = resolvePath st0.video_folder "b.mp4" :=
  ⟨by decide, track_entry_self_consistent exAB "t1" st0 "b.mp4" none 0 (by decide)⟩

/-- C10: when the tracking file parses as valid JSON, `load_history`
returns the parsed value as-is, whatever its shape — in particular a JSON
array or number comes back unchanged rather than as an empty mapping, so
the result is not guaranteed to be a mapping. -/
theorem load_history_valid_asis :
    (∀ v : Json, load_history (FileState.valid v) = v)
    ∧ load_history (FileState.valid (Json.arr [])) = Json.arr []
    ∧ load_history (FileState.valid (Json.num 5)) = Json.num 5 :=
  ⟨fun _ => rfl, rfl, rfl⟩

end VideoTracker
